import Mathlib

/-!
# Login-Project: session-based authentication handlers of `main.go`

A shallow embedding of the request handlers of `main.go` (`signupHandler`,
`loginHandler`, `logoutHandler`, `welcomeHandler`, `authMiddleware`,
`getUsernameFromRequest`) over an explicit world state.

* The two SQLite tables of `createTables` are lists of rows in insertion order.
  `users.username` is `UNIQUE` and `sessions.session_id` is the `PRIMARY KEY`, so
  an `INSERT` fails exactly when the key is already present.  The storage engine
  is otherwise taken to be fault free.
* `time.Now()`, `uuid.NewString()` and `bcrypt.GenerateFromPassword` are external:
  the world carries the stream of their upcoming results, and a call consumes the
  head of its stream.  `bcrypt.CompareHashAndPassword` is a function of its
  arguments.
* A `time.Time` is an integer number of nanoseconds since the Unix epoch.
* The response records the calls a handler makes on its `http.ResponseWriter`:
  the cookies set with `http.SetCookie`, then the one call that writes the reply.
-/

namespace LoginProject

/-! ## Data model -/

/-- A row of table `users` (`username TEXT UNIQUE NOT NULL, password TEXT NOT NULL`);
the position of the row in the table stands for the autoincremented `id`. -/
structure User where
  username : String
  password : String
deriving DecidableEq, Repr

/-- A row of table `sessions`
(`session_id TEXT PRIMARY KEY, username TEXT NOT NULL, expires DATETIME NOT NULL`). -/
structure Session where
  session_id : String
  username : String
  expires : Int
deriving DecidableEq, Repr

/-- The state a handler runs in: the database behind the global `db`, and the
upcoming results of the external calls. -/
structure World where
  /-- table `users` -/
  users : List User
  /-- table `sessions` -/
  sessions : List Session
  /-- upcoming results of `time.Now()` -/
  now : Nat → Int
  /-- upcoming results of `uuid.NewString()` -/
  newString : Nat → String
  /-- upcoming calls of `bcrypt.GenerateFromPassword(·, bcrypt.DefaultCost)`, each a
  function of the password; `none` is a non-nil `err` -/
  generateFromPassword : Nat → String → Option String
  /-- The value `compareHashAndPassword hash password` is
  `bcrypt.CompareHashAndPassword(hash, password) == nil` -/
  compareHashAndPassword : String → String → Bool

/-- An `*http.Request`, as far as the handlers read it. -/
structure Request where
  Method : String
  /-- The call `r.FormValue(key)`; the empty string when the field is absent -/
  FormValue : String → String
  /-- The call `r.Cookie(name)`: the value of the cookie, `none` for `http.ErrNoCookie` -/
  Cookie : String → Option String

/-- An `http.Cookie` as the handlers build it; unset fields have Go's zero value. -/
structure Cookie where
  Name : String
  Value : String
  Path : String
  HttpOnly : Bool
  Secure : Bool
  Expires : Int
deriving DecidableEq, Repr

/-- The call with which a handler writes its reply. -/
inductive Reply where
  /-- The call `http.Redirect(w, r, url, code)` -/
  | Redirect (url : String) (code : Nat)
  /-- The call `http.Error(w, msg, code)` -/
  | Error (msg : String) (code : Nat)
  /-- The call `tmpl.ExecuteTemplate(w, name, data)`; `data` is `nil` or the `Username` field -/
  | ExecuteTemplate (name : String) (data : Option String)
deriving DecidableEq, Repr

/-- What a handler did to its `http.ResponseWriter`. -/
structure Response where
  /-- the `http.SetCookie` calls, in order -/
  cookies : List Cookie
  reply : Reply
deriving DecidableEq, Repr

/-- An `http.HandlerFunc`. -/
abbrev HandlerFunc := World → Request → Response × World

/-- The constant `http.StatusSeeOther`. -/
def StatusSeeOther : Nat := 303

/-- The constant `http.StatusConflict`. -/
def StatusConflict : Nat := 409

/-- The constant `http.StatusInternalServerError`. -/
def StatusInternalServerError : Nat := 500

/-- The constant `http.MethodPost`. -/
def MethodPost : String := "POST"

/-- The duration `24 * time.Hour`, in nanoseconds. -/
def sessionTTL : Int := 24 * 3600000000000

/-! ## External calls -/

/-- The call `time.Now()`. -/
def timeNow (w : World) : Int × World :=
  (w.now 0, { w with now := fun n => w.now (n + 1) })

/-- The call `uuid.NewString()`. -/
def uuidNewString (w : World) : String × World :=
  (w.newString 0, { w with newString := fun n => w.newString (n + 1) })

/-- The call `bcrypt.GenerateFromPassword([]byte(password), bcrypt.DefaultCost)`. -/
def bcryptGenerateFromPassword (w : World) (password : String) : Option String × World :=
  (w.generateFromPassword 0 password,
    { w with generateFromPassword := fun n => w.generateFromPassword (n + 1) })

/-- The method `After` of `time.Time`: `t.After(u)` is `t > u`. -/
def After (t u : Int) : Bool := decide (u < t)

/-! ## Queries -/

/-- The statement `INSERT INTO users(username, password) VALUES (?, ?)`; `none` when the
`UNIQUE` constraint on `username` rejects the row. -/
def insertUser (users : List User) (username password : String) : Option (List User) :=
  if users.any (fun row => row.username == username) then none
  else some (users ++ [{ username := username, password := password }])

/-- The query `SELECT password FROM users WHERE username = ?`, as read by `QueryRow(..).Scan`:
the first matching row, `none` for `sql.ErrNoRows`. -/
def selectPassword (users : List User) (username : String) : Option String :=
  (users.find? (fun row => row.username == username)).map (fun row => row.password)

/-- The statement `INSERT INTO sessions(session_id, username, expires) VALUES (?, ?, ?)`; `none`
when the `PRIMARY KEY` constraint on `session_id` rejects the row. -/
def insertSession (sessions : List Session) (sessionID username : String) (expires : Int) :
    Option (List Session) :=
  if sessions.any (fun row => row.session_id == sessionID) then none
  else some (sessions ++ [{ session_id := sessionID, username := username, expires := expires }])

/-- The query `SELECT username, expires FROM sessions WHERE session_id = ?`, as read by
`QueryRow(..).Scan`: the first matching row, `none` for `sql.ErrNoRows`. -/
def selectSession (sessions : List Session) (sessionID : String) : Option Session :=
  sessions.find? (fun row => row.session_id == sessionID)

/-- The statement `DELETE FROM sessions WHERE session_id = ?`. -/
def deleteSession (sessions : List Session) (sessionID : String) : List Session :=
  sessions.filter (fun row => !(row.session_id == sessionID))

/-! ## Handlers -/

/-- Handler `signupHandler` (main.go, lines 60-80). -/
def signupHandler : HandlerFunc := fun w r =>
  if r.Method = MethodPost then
    let username := r.FormValue "username"
    let password := r.FormValue "password"
    match bcryptGenerateFromPassword w password with
    | (none, w1) =>
      ({ cookies := [], reply := .Error "Server error" StatusInternalServerError }, w1)
    | (some hashedPassword, w1) =>
      match insertUser w1.users username hashedPassword with
      | none =>
        ({ cookies := [], reply := .Error "Username already exists" StatusConflict }, w1)
      | some users =>
        ({ cookies := [], reply := .Redirect "/login" StatusSeeOther },
          { w1 with users := users })
  else
    ({ cookies := [], reply := .ExecuteTemplate "signup.html" none }, w)

/-- Handler `loginHandler` (main.go, lines 82-116). -/
def loginHandler : HandlerFunc := fun w r =>
  if r.Method = MethodPost then
    let username := r.FormValue "username"
    let password := r.FormValue "password"
    match selectPassword w.users username with
    | none => ({ cookies := [], reply := .ExecuteTemplate "invalid.html" none }, w)
    | some dbPassword =>
      if !(w.compareHashAndPassword dbPassword password) then
        ({ cookies := [], reply := .ExecuteTemplate "invalid.html" none }, w)
      else
        match uuidNewString w with
        | (sessionID, w1) =>
          match timeNow w1 with
          | (now, w2) =>
            let expiresAt := now + sessionTTL
            match insertSession w2.sessions sessionID username expiresAt with
            | none =>
              ({ cookies := [], reply := .Error "Server error" StatusInternalServerError }, w2)
            | some sessions =>
              ({ cookies := [{ Name := "session_id", Value := sessionID, Path := "/",
                               HttpOnly := true, Secure := false, Expires := expiresAt }],
                 reply := .Redirect "/welcome" StatusSeeOther },
                { w2 with sessions := sessions })
  else
    ({ cookies := [], reply := .ExecuteTemplate "login.html" none }, w)

/-- Handler `logoutHandler` (main.go, lines 118-131); the result of `db.Exec` is discarded. -/
def logoutHandler : HandlerFunc := fun w r =>
  match r.Cookie "session_id" with
  | some value =>
    ({ cookies := [{ Name := "session_id", Value := "", Path := "/",
                     HttpOnly := true, Secure := false, Expires := 0 }],
       reply := .Redirect "/login" StatusSeeOther },
      { w with sessions := deleteSession w.sessions value })
  | none => ({ cookies := [], reply := .Redirect "/login" StatusSeeOther }, w)

/-- Function `getUsernameFromRequest` (main.go, lines 166-180).  `time.Now()` is the right
operand of `||`, so it is called only when the row was found. -/
def getUsernameFromRequest (w : World) (r : Request) : String × World :=
  match r.Cookie "session_id" with
  | none => ("", w)
  | some value =>
    match selectSession w.sessions value with
    | none => ("", w)
    | some row =>
      match timeNow w with
      | (now, w1) => if After now row.expires then ("", w1) else (row.username, w1)

/-- Handler `welcomeHandler` (main.go, lines 151-154). -/
def welcomeHandler : HandlerFunc := fun w r =>
  match getUsernameFromRequest w r with
  | (username, w1) =>
    ({ cookies := [], reply := .ExecuteTemplate "welcome.html" (some username) }, w1)

/-- Function `authMiddleware` (main.go, lines 156-164). -/
def authMiddleware (next : HandlerFunc) : HandlerFunc := fun w r =>
  match getUsernameFromRequest w r with
  | (username, w1) =>
    if username = "" then
      ({ cookies := [], reply := .Redirect "/login" StatusSeeOther }, w1)
    else next w1 r

/-! ## Executions -/

/-- One request served by the routes that `main` registers for the
authentication core: `/signup`, `/login`, `/logout`, and the protected
`/welcome`, which is `authMiddleware(welcomeHandler)`. -/
inductive Step where
  | signup (r : Request)
  | login (r : Request)
  | logout (r : Request)
  | welcome (r : Request)

/-- The handler that serves a step. -/
def Step.handler : Step → HandlerFunc
  | .signup _ => signupHandler
  | .login _ => loginHandler
  | .logout _ => logoutHandler
  | .welcome _ => authMiddleware welcomeHandler

/-- The request of a step. -/
def Step.request : Step → Request
  | .signup r => r
  | .login r => r
  | .logout r => r
  | .welcome r => r

/-- The world after serving one request. -/
def step (w : World) (s : Step) : World := (s.handler w s.request).2

/-- The world after serving a sequence of requests, one after the other. -/
def run (w : World) (steps : List Step) : World := steps.foldl step w

/-! ## Vocabulary of the statements -/

/-- A request with the given method, form fields `username` and `password`, and
`session_id` cookie. -/
def mkRequest (method username password : String) (cookie : Option String) : Request :=
  { Method := method
    FormValue := fun key =>
      if key = "username" then username else if key = "password" then password else ""
    Cookie := fun name => if name = "session_id" then cookie else none }

/-- The request carries a `session_id` cookie whose token has a session row that
the next reading of the clock is not after. -/
def hasLiveSession (w : World) (r : Request) : Bool :=
  match r.Cookie "session_id" with
  | none => false
  | some value =>
    match selectSession w.sessions value with
    | none => false
    | some row => !(After (w.now 0) row.expires)

/-- The cookie that `loginHandler` sets for token `sessionID` expiring at `expiresAt`. -/
def sessionCookie (sessionID : String) (expiresAt : Int) : Cookie :=
  { Name := "session_id", Value := sessionID, Path := "/",
    HttpOnly := true, Secure := false, Expires := expiresAt }

/-- The reply `http.Redirect(w, r, "/login", http.StatusSeeOther)` with no cookie set. -/
def redirectToLogin : Response :=
  { cookies := [], reply := .Redirect "/login" StatusSeeOther }

/-- The invalid-credentials page: `invalid.html`, no cookie set. -/
def invalidPage : Response :=
  { cookies := [], reply := .ExecuteTemplate "invalid.html" none }

/-- Token `T` can no longer be resolved in `w`, now or later: the clock is
non-decreasing, `uuid.NewString()` will not return `T`, and a row for `T`, if there
is one, has an expiry that the next clock reading is already after. -/
def Absorbed (w : World) (T : String) : Prop :=
  Monotone w.now ∧ (∀ n, w.newString n ≠ T) ∧
    ∀ row, selectSession w.sessions T = some row → row.expires < w.now 0

/-- A world for examples, with the given tables and clock: `uuid.NewString()` always
returns `"T"`, the digest of `p` is `p` behind a marker, hashing never fails, and a
password verifies against its own digest only. -/
def demoWorld (users : List User) (sessions : List Session) (now : Nat → Int) : World :=
  { users := users
    sessions := sessions
    now := now
    newString := fun _ => "T"
    generateFromPassword := fun _ p => some ("$2a$" ++ p)
    compareHashAndPassword := fun h p => h == "$2a$" ++ p }

/-- A password of 73 bytes. -/
def longPassword : String := String.mk (List.replicate 73 'x')

/-- As `demoWorld`, but with the length limit of `golang.org/x/crypto/bcrypt`:
`GenerateFromPassword` returns `ErrPasswordTooLong` for a password of more than 72
bytes. -/
def lengthLimitWorld (users : List User) : World :=
  { demoWorld users [] (fun _ => 0) with
    generateFromPassword := fun _ p =>
      if 72 < p.utf8ByteSize then none else some ("$2a$" ++ p) }

/-! ## Lemmas on the queries -/

theorem selectSession_deleteSession_self (sessions : List Session) (T : String) :
    selectSession (deleteSession sessions T) T = none := by
  unfold selectSession deleteSession
  rw [List.find?_eq_none]
  intro row hrow
  have h := (List.mem_filter.mp hrow).2
  simpa using h

theorem selectSession_deleteSession_of_ne (sessions : List Session) (T c : String)
    (hne : c ≠ T) :
    selectSession (deleteSession sessions c) T = selectSession sessions T := by
  unfold selectSession deleteSession
  rw [List.find?_filter]
  congr 1
  funext row
  by_cases hT : row.session_id = T
  · have hc : ¬ row.session_id = c := fun h => hne (h.symm.trans hT)
    simp [hT, hc]
    simpa [hT] using hc
  · simp [hT]

theorem deleteSession_idem (sessions : List Session) (T : String) :
    deleteSession (deleteSession sessions T) T = deleteSession sessions T := by
  unfold deleteSession
  simp [List.filter_filter]

theorem insertSession_of_fresh (sessions : List Session) (T u : String) (e : Int)
    (h : selectSession sessions T = none) :
    insertSession sessions T u e =
      some (sessions ++ [{ session_id := T, username := u, expires := e }]) := by
  unfold insertSession
  unfold selectSession at h
  rw [List.find?_eq_none] at h
  have hany : sessions.any (fun row => row.session_id == T) = false := by
    rw [List.any_eq_false]
    intro row hrow
    exact h row hrow
  simp [hany]

theorem selectSession_append_of_ne (sessions : List Session) (row : Session) (T : String)
    (hne : row.session_id ≠ T) :
    selectSession (sessions ++ [row]) T = selectSession sessions T := by
  unfold selectSession
  rw [List.find?_append]
  have : List.find? (fun r => r.session_id == T) [row] = none := by
    simp [List.find?_cons, hne]
  rw [this]
  simp

theorem selectSession_append_fresh (sessions : List Session) (row : Session)
    (h : selectSession sessions row.session_id = none) :
    selectSession (sessions ++ [row]) row.session_id = some row := by
  unfold selectSession at *
  rw [List.find?_append, h]
  simp [List.find?_cons]

theorem insertSession_eq_some (sessions sessions1 : List Session) (T u : String) (e : Int)
    (h : insertSession sessions T u e = some sessions1) :
    sessions1 = sessions ++ [{ session_id := T, username := u, expires := e }] := by
  unfold insertSession at h
  split at h
  · cases h
  · exact (Option.some.inj h).symm

/-! ## Validity of a session (C3) -/

/-- C3, as the claim states it, fails at the expiry instant: with the row
`("T", "alice", 100)` and the clock reading exactly `100`, `getUsernameFromRequest`
returns `"alice"`, not the empty string. -/
theorem getUsernameFromRequest_at_expiry_instant :
    selectSession (demoWorld [] [⟨"T", "alice", 100⟩] (fun _ => 100)).sessions "T"
        = some ⟨"T", "alice", 100⟩ ∧
      (demoWorld [] [⟨"T", "alice", 100⟩] (fun _ => 100)).now 0 = 100 ∧
      (getUsernameFromRequest (demoWorld [] [⟨"T", "alice", 100⟩] (fun _ => 100))
        (mkRequest "GET" "" "" (some "T"))).1 = "alice" := by
  decide

/-- C3 (amended): `getUsernameFromRequest` returns the session row's username when a
row for the token exists and the current time is not after the row's expiry
(`now ≤ expires`); it returns the empty string when the cookie is missing, when no
row exists, and when the current time is after the expiry (`now > expires`). -/
theorem getUsernameFromRequest_valid_iff_not_after (w : World) (r : Request) :
    (∀ T row, r.Cookie "session_id" = some T → selectSession w.sessions T = some row →
        w.now 0 ≤ row.expires → (getUsernameFromRequest w r).1 = row.username) ∧
      (r.Cookie "session_id" = none → (getUsernameFromRequest w r).1 = "") ∧
      (∀ T, r.Cookie "session_id" = some T → selectSession w.sessions T = none →
        (getUsernameFromRequest w r).1 = "") ∧
      (∀ T row, r.Cookie "session_id" = some T → selectSession w.sessions T = some row →
        row.expires < w.now 0 → (getUsernameFromRequest w r).1 = "") := by
  refine ⟨?_, ?_, ?_, ?_⟩
  · intro T row hc hs hle
    have : ¬ row.expires < w.now 0 := not_lt.mpr hle
    simp [getUsernameFromRequest, hc, hs, timeNow, After, this]
  · intro hc
    simp [getUsernameFromRequest, hc]
  · intro T hc hs
    simp [getUsernameFromRequest, hc, hs]
  · intro T row hc hs hlt
    simp [getUsernameFromRequest, hc, hs, timeNow, After, hlt]

/-- The amended C3 at a concrete input: a live row is resolved at its expiry instant. -/
theorem getUsernameFromRequest_valid_iff_not_after_witness :
    (getUsernameFromRequest (demoWorld [] [⟨"T", "bob", 7⟩] (fun _ => 7))
      (mkRequest "GET" "" "" (some "T"))).1 = "bob" :=
  (getUsernameFromRequest_valid_iff_not_after
    (demoWorld [] [⟨"T", "bob", 7⟩] (fun _ => 7)) (mkRequest "GET" "" "" (some "T"))).1
    "T" ⟨"T", "bob", 7⟩ (by decide) (by decide) (by decide)

/-! ## Revocation (C2) -/

/-- C2: after `logoutHandler` has handled a request carrying cookie `session_id = T`,
`getUsernameFromRequest` on a request carrying `T` returns the empty string whatever
the clock reads; handling the logout request a second time gives the same response
(the redirect to `/login`, not an error) and leaves the world as it was after the
first. -/
theorem logout_revokes_and_is_idempotent (w : World) (T : String) (r r1 : Request)
    (hr : r.Cookie "session_id" = some T) (hr1 : r1.Cookie "session_id" = some T) :
    (∀ clock : Nat → Int,
        (getUsernameFromRequest { (logoutHandler w r).2 with now := clock } r1).1 = "") ∧
      logoutHandler (logoutHandler w r).2 r = logoutHandler w r ∧
      (logoutHandler w r).1.reply = .Redirect "/login" StatusSeeOther := by
  refine ⟨?_, ?_, ?_⟩
  · intro clock
    simp [getUsernameFromRequest, logoutHandler, hr, hr1, selectSession_deleteSession_self]
  · simp [logoutHandler, hr, deleteSession_idem]
  · simp [logoutHandler, hr]

/-- C2 at a concrete input: the session `"T"` of alice is revoked. -/
theorem logout_revokes_and_is_idempotent_witness :
    (mkRequest "GET" "" "" (some "T")).Cookie "session_id" = some "T" ∧
      (logoutHandler (demoWorld [] [⟨"T", "alice", 100⟩] (fun _ => 0))
        (mkRequest "GET" "" "" (some "T"))).2.sessions = [] ∧
      (logoutHandler (demoWorld [] [⟨"T", "alice", 100⟩] (fun _ => 0))
        (mkRequest "GET" "" "" (some "T"))).1.reply = .Redirect "/login" StatusSeeOther :=
  ⟨by decide, by decide,
    (logout_revokes_and_is_idempotent (demoWorld [] [⟨"T", "alice", 100⟩] (fun _ => 0)) "T"
      (mkRequest "GET" "" "" (some "T")) (mkRequest "GET" "" "" (some "T"))
      (by decide) (by decide)).2.2⟩

/-! ## Authentication failure (C4) -/

/-- C4: a login POST whose username has no user row and a login POST whose
username exists but whose password fails verification have the same outcome: the
invalid-credentials page with no cookie and no redirect, and an unchanged world (no
session row is created). -/
theorem login_failure_uniform (w : World) (r1 r2 : Request) (dbPassword : String)
    (hm1 : r1.Method = MethodPost) (hm2 : r2.Method = MethodPost)
    (habsent : selectPassword w.users (r1.FormValue "username") = none)
    (hpresent : selectPassword w.users (r2.FormValue "username") = some dbPassword)
    (hwrong : w.compareHashAndPassword dbPassword (r2.FormValue "password") = false) :
    loginHandler w r1 = (invalidPage, w) ∧ loginHandler w r2 = (invalidPage, w) ∧
      loginHandler w r1 = loginHandler w r2 ∧
      invalidPage.cookies = [] ∧ invalidPage.reply = .ExecuteTemplate "invalid.html" none := by
  have h1 : loginHandler w r1 = (invalidPage, w) := by
    simp [loginHandler, hm1, habsent, invalidPage]
  have h2 : loginHandler w r2 = (invalidPage, w) := by
    simp [loginHandler, hm2, hpresent, hwrong, invalidPage]
  exact ⟨h1, h2, h1.trans h2.symm, rfl, rfl⟩

/-- C4 at a concrete input: unknown user `mallory` against wrong password for `alice`. -/
theorem login_failure_uniform_witness :
    loginHandler (demoWorld [⟨"alice", "$2a$pw1"⟩] [] (fun _ => 0))
        (mkRequest "POST" "mallory" "pw1" none) =
      loginHandler (demoWorld [⟨"alice", "$2a$pw1"⟩] [] (fun _ => 0))
        (mkRequest "POST" "alice" "wrong" none) :=
  (login_failure_uniform (demoWorld [⟨"alice", "$2a$pw1"⟩] [] (fun _ => 0))
    (mkRequest "POST" "mallory" "pw1" none) (mkRequest "POST" "alice" "wrong" none)
    "$2a$pw1" (by decide) (by decide) (by decide) (by decide) (by decide)).2.2.1

/-! ## Session issuance (C7) -/

/-- C7: when a login POST with username `u` succeeds (the reply is the redirect to
`/welcome`) at time `t = w.now 0`, the response sets exactly the cookie
`session_id = T` for the generated token `T`, the sessions table is the old one
followed by the one new row `(T, u, t + 24h)`, and the users table is unchanged. -/
theorem login_issues_one_session (w : World) (r : Request)
    (hok : (loginHandler w r).1.reply = .Redirect "/welcome" StatusSeeOther) :
    (loginHandler w r).1.cookies = [sessionCookie (w.newString 0) (w.now 0 + sessionTTL)] ∧
      (loginHandler w r).2.sessions =
        w.sessions ++ [{ session_id := w.newString 0, username := r.FormValue "username",
                         expires := w.now 0 + sessionTTL }] ∧
      (loginHandler w r).2.users = w.users ∧
      sessionTTL = 24 * 60 * 60 * 1000000000 := by
  unfold loginHandler at hok ⊢
  by_cases hm : r.Method = MethodPost
  · simp only [hm, if_true] at hok ⊢
    cases hsel : selectPassword w.users (r.FormValue "username") with
    | none => simp [hsel] at hok
    | some dbPassword =>
      simp only [hsel] at hok ⊢
      cases hcmp : w.compareHashAndPassword dbPassword (r.FormValue "password") with
      | false => simp [hcmp] at hok
      | true =>
        simp only [hcmp, uuidNewString, timeNow] at hok ⊢
        cases hins : insertSession w.sessions (w.newString 0) (r.FormValue "username")
            (w.now 0 + sessionTTL) with
        | none => simp [hins] at hok
        | some sessions1 =>
          have := insertSession_eq_some _ _ _ _ _ hins
          simp [hins, this, sessionCookie, sessionTTL]
  · simp [hm] at hok

/-- C7 at a concrete input: alice logs in at time `5`. -/
theorem login_issues_one_session_witness :
    (loginHandler (demoWorld [⟨"alice", "$2a$pw1"⟩] [⟨"S", "bob", 9⟩] (fun _ => 5))
        (mkRequest "POST" "alice" "pw1" none)).2.sessions =
      [⟨"S", "bob", 9⟩, ⟨"T", "alice", 5 + sessionTTL⟩] :=
  (login_issues_one_session (demoWorld [⟨"alice", "$2a$pw1"⟩] [⟨"S", "bob", 9⟩] (fun _ => 5))
    (mkRequest "POST" "alice" "pw1" none) (by decide)).2.1

/-! ## Lemmas on the users table -/

theorem insertUser_of_absent (users : List User) (u d : String)
    (h : selectPassword users u = none) :
    insertUser users u d = some (users ++ [{ username := u, password := d }]) := by
  unfold insertUser
  unfold selectPassword at h
  rw [Option.map_eq_none', List.find?_eq_none] at h
  have hany : users.any (fun row => row.username == u) = false := by
    rw [List.any_eq_false]
    intro row hrow
    exact h row hrow
  simp [hany]

theorem insertUser_of_present (users : List User) (u d : String)
    (h : selectPassword users u ≠ none) : insertUser users u d = none := by
  unfold insertUser
  unfold selectPassword at h
  have hsome : (users.find? (fun row => row.username == u)).isSome = true := by
    cases hf : users.find? (fun row => row.username == u) with
    | none => simp [hf] at h
    | some row => rfl
  rw [List.find?_isSome] at hsome
  obtain ⟨row, hrow, hp⟩ := hsome
  have hany : users.any (fun row => row.username == u) = true :=
    List.any_eq_true.mpr ⟨row, hrow, hp⟩
  simp [hany]

theorem selectPassword_append_absent (users : List User) (u d : String)
    (h : selectPassword users u = none) :
    selectPassword (users ++ [{ username := u, password := d }]) u = some d := by
  unfold selectPassword at *
  rw [Option.map_eq_none'] at h
  rw [List.find?_append, h]
  simp [List.find?_cons]

/-! ## Register, authenticate, resolve (C1) -/

/-- C1: let `u` be a non-empty username with no user row and `p` a password.  If the
signup POST with `(u, p)` succeeds (redirect to `/login`), the hasher verifies `p`
against the digest it produced, and the generated token `T` is not yet a session
key, then the login POST with `(u, p)` at time `t` succeeds: it sets the cookie
`session_id = T`, redirects to `/welcome` and stores the session row
`(T, u, t + 24h)`; and `getUsernameFromRequest` on a request carrying cookie `T`
at time `t` returns `u`. -/
theorem signup_login_resolve (w : World) (r1 r2 r3 : Request) (u p : String) (t : Int)
    (hm1 : r1.Method = MethodPost) (hu1 : r1.FormValue "username" = u)
    (hp1 : r1.FormValue "password" = p)
    (hm2 : r2.Method = MethodPost) (hu2 : r2.FormValue "username" = u)
    (hp2 : r2.FormValue "password" = p)
    (_hne : u ≠ "") (hnew : selectPassword w.users u = none)
    (hsignup : (signupHandler w r1).1.reply = .Redirect "/login" StatusSeeOther)
    (hverify : ∀ d, w.generateFromPassword 0 p = some d →
      w.compareHashAndPassword d p = true)
    (htoken : selectSession w.sessions (w.newString 0) = none)
    (ht0 : w.now 0 = t) (ht1 : w.now 1 = t)
    (hr3 : r3.Cookie "session_id" = some (w.newString 0)) :
    (loginHandler (signupHandler w r1).2 r2).1 =
        { cookies := [sessionCookie (w.newString 0) (t + sessionTTL)],
          reply := .Redirect "/welcome" StatusSeeOther } ∧
      (loginHandler (signupHandler w r1).2 r2).2.sessions =
        w.sessions ++ [{ session_id := w.newString 0, username := u,
                         expires := t + sessionTTL }] ∧
      (getUsernameFromRequest (loginHandler (signupHandler w r1).2 r2).2 r3).1 = u := by
  cases hgen : w.generateFromPassword 0 p with
  | none =>
    simp [signupHandler, hm1, hp1, bcryptGenerateFromPassword, hgen] at hsignup
  | some d =>
    have hcmp := hverify d hgen
    have hins := insertUser_of_absent w.users u d hnew
    have hsel := selectPassword_append_absent w.users u d hnew
    have hsess := insertSession_of_fresh w.sessions (w.newString 0) u
      (w.now 0 + sessionTTL) htoken
    have hlook := selectSession_append_fresh w.sessions
      { session_id := w.newString 0, username := u, expires := w.now 0 + sessionTTL } htoken
    have hfut : ¬ (w.now 0 + sessionTTL < w.now 1) := by
      rw [ht0, ht1]
      simp [sessionTTL]
    simp [signupHandler, hm1, hu1, hp1, bcryptGenerateFromPassword, hgen, hins,
      loginHandler, hm2, hu2, hp2, hsel, hcmp, uuidNewString, timeNow, hsess, sessionCookie,
      getUsernameFromRequest, hr3, hlook, After, hfut, ← ht0]

/-- C1 at a concrete input: alice registers, logs in at time `5`, is resolved. -/
theorem signup_login_resolve_witness :
    (signupHandler (demoWorld [] [] (fun _ => 5))
        (mkRequest "POST" "alice" "pw1" none)).1.reply = .Redirect "/login" StatusSeeOther ∧
      (getUsernameFromRequest
        (loginHandler (signupHandler (demoWorld [] [] (fun _ => 5))
          (mkRequest "POST" "alice" "pw1" none)).2
          (mkRequest "POST" "alice" "pw1" none)).2
        (mkRequest "GET" "" "" (some "T"))).1 = "alice" :=
  ⟨by decide,
    (signup_login_resolve (demoWorld [] [] (fun _ => 5))
      (mkRequest "POST" "alice" "pw1" none) (mkRequest "POST" "alice" "pw1" none)
      (mkRequest "GET" "" "" (some "T")) "alice" "pw1" 5
      (by decide) (by decide) (by decide) (by decide) (by decide) (by decide)
      (by decide) (by decide) (by decide)
      (by intro d hd; cases hd; decide)
      (by decide) (by decide) (by decide) (by decide)).2.2⟩

/-! ## Duplicate registration (C5) -/

/-- C5, as the claim states it, fails for a password the hasher rejects: `alice` has
a user row, the submitted password has 73 bytes so that `bcrypt.GenerateFromPassword`
returns an error, and the signup POST is answered with the server-error response
(500), not with the conflict response. -/
theorem signup_duplicate_hash_error :
    selectPassword (lengthLimitWorld [⟨"alice", "$2a$pw1"⟩]).users "alice" = some "$2a$pw1" ∧
      longPassword.utf8ByteSize = 73 ∧
      (signupHandler (lengthLimitWorld [⟨"alice", "$2a$pw1"⟩])
        (mkRequest "POST" "alice" longPassword none)).1
        = { cookies := [], reply := .Error "Server error" StatusInternalServerError } ∧
      (signupHandler (lengthLimitWorld [⟨"alice", "$2a$pw1"⟩])
        (mkRequest "POST" "alice" longPassword none)).1.reply
        ≠ .Error "Username already exists" StatusConflict := by
  decide

/-- C5 (amended): when username `u` already has a user row, a signup POST with `u`
and any password fails: with the conflict response whenever hashing the password
succeeds, and with the server-error response when hashing fails; in both cases the
users table is unchanged, so the digest stored for `u` is the original one. -/
theorem signup_duplicate_rejected (w : World) (r : Request) (u digest : String)
    (hm : r.Method = MethodPost) (hu : r.FormValue "username" = u)
    (hrow : selectPassword w.users u = some digest) :
    (∀ d, w.generateFromPassword 0 (r.FormValue "password") = some d →
        (signupHandler w r).1 =
          { cookies := [], reply := .Error "Username already exists" StatusConflict }) ∧
      (w.generateFromPassword 0 (r.FormValue "password") = none →
        (signupHandler w r).1 =
          { cookies := [], reply := .Error "Server error" StatusInternalServerError }) ∧
      (signupHandler w r).2.users = w.users ∧
      (signupHandler w r).2.sessions = w.sessions ∧
      selectPassword (signupHandler w r).2.users u = some digest := by
  have hpres : selectPassword w.users u ≠ none := by simp [hrow]
  cases hgen : w.generateFromPassword 0 (r.FormValue "password") with
  | none =>
    simp [signupHandler, hm, bcryptGenerateFromPassword, hgen, hrow]
  | some d =>
    have hins := insertUser_of_present w.users u d hpres
    simp [signupHandler, hm, hu, bcryptGenerateFromPassword, hgen, hins, hrow]

/-- The amended C5 at a concrete input: a second signup of `alice` is a conflict. -/
theorem signup_duplicate_rejected_witness :
    selectPassword (demoWorld [⟨"alice", "$2a$pw1"⟩] [] (fun _ => 0)).users "alice"
        = some "$2a$pw1" ∧
      (signupHandler (demoWorld [⟨"alice", "$2a$pw1"⟩] [] (fun _ => 0))
        (mkRequest "POST" "alice" "pw2" none)).1 =
        { cookies := [], reply := .Error "Username already exists" StatusConflict } :=
  ⟨by decide,
    (signup_duplicate_rejected (demoWorld [⟨"alice", "$2a$pw1"⟩] [] (fun _ => 0))
      (mkRequest "POST" "alice" "pw2" none) "alice" "$2a$pw1"
      (by decide) (by decide) (by decide)).1 "$2a$pw2" (by decide)⟩

/-! ## The access guard (C6) -/

theorem selectSession_mem (sessions : List Session) (T : String) (row : Session)
    (h : selectSession sessions T = some row) : row ∈ sessions := by
  unfold selectSession at h
  exact List.mem_of_find?_eq_some h

/-- C6: in a world whose session owners are non-empty usernames, `authMiddleware next`
answers with the redirect to `/login`, whatever `next` is (it is not invoked), when
the request has no `session_id` cookie or its token has no live session row (a row
is live when it is present and the time is not after its expiry); otherwise its
result is that of `next`, applied once to the request in the world left by the
guard's clock reading. -/
theorem authMiddleware_decision (w : World) (r : Request) (next : HandlerFunc)
    (howners : ∀ row ∈ w.sessions, row.username ≠ "") :
    (hasLiveSession w r = false →
        authMiddleware next w r = (redirectToLogin, (getUsernameFromRequest w r).2) ∧
        (getUsernameFromRequest w r).2.users = w.users ∧
        (getUsernameFromRequest w r).2.sessions = w.sessions) ∧
      (hasLiveSession w r = true → authMiddleware next w r = next (timeNow w).2 r) := by
  cases hc : r.Cookie "session_id" with
  | none => simp [hasLiveSession, authMiddleware, getUsernameFromRequest, hc, redirectToLogin]
  | some T =>
    cases hs : selectSession w.sessions T with
    | none =>
      simp [hasLiveSession, authMiddleware, getUsernameFromRequest, hc, hs, redirectToLogin]
    | some row =>
      have hne : row.username ≠ "" := howners row (selectSession_mem _ _ _ hs)
      by_cases hexp : After (w.now 0) row.expires = true
      · simp [hasLiveSession, authMiddleware, getUsernameFromRequest, hc, hs, hexp, timeNow,
          redirectToLogin]
      · simp [hasLiveSession, authMiddleware, getUsernameFromRequest, hc, hs, hexp, timeNow,
          hne]

/-- C6 at a concrete input: a live session is admitted to `welcomeHandler`. -/
theorem authMiddleware_decision_witness :
    (∀ row ∈ (demoWorld [] [⟨"T", "alice", 100⟩] (fun _ => 5)).sessions, row.username ≠ "") ∧
      authMiddleware welcomeHandler (demoWorld [] [⟨"T", "alice", 100⟩] (fun _ => 5))
          (mkRequest "GET" "" "" (some "T")) =
        welcomeHandler (timeNow (demoWorld [] [⟨"T", "alice", 100⟩] (fun _ => 5))).2
          (mkRequest "GET" "" "" (some "T")) :=
  ⟨by decide,
    (authMiddleware_decision (demoWorld [] [⟨"T", "alice", 100⟩] (fun _ => 5))
      (mkRequest "GET" "" "" (some "T")) welcomeHandler (by decide)).2 (by decide)⟩

/-! ## The identity the guarded handler sees (C10) -/

/-- C10, as the claim states it, fails when the session expires between the two
lookups: with the row `("T", "alice", 100)`, the guard reads the clock at `100` and
resolves `"alice"`, `welcomeHandler` reads it at `101` and renders the empty
username. -/
theorem welcome_renders_empty_after_guard_admits :
    (getUsernameFromRequest (demoWorld [] [⟨"T", "alice", 100⟩] (fun n => 100 + n))
        (mkRequest "GET" "" "" (some "T"))).1 = "alice" ∧
      (authMiddleware welcomeHandler (demoWorld [] [⟨"T", "alice", 100⟩] (fun n => 100 + n))
        (mkRequest "GET" "" "" (some "T"))).1 =
        { cookies := [], reply := .ExecuteTemplate "welcome.html" (some "") } := by
  decide

/-- C10 (amended): whenever `authMiddleware` admits a request to `welcomeHandler`
(the guard resolves a non-empty username) and the handler makes its own lookup at a
time that is not after the session's expiry, the username `welcomeHandler` renders
is the non-empty username the guard resolved for the request's token. -/
theorem welcome_renders_guard_identity (w : World) (r : Request) (T : String) (row : Session)
    (hc : r.Cookie "session_id" = some T) (hs : selectSession w.sessions T = some row)
    (hguard : (getUsernameFromRequest w r).1 ≠ "")
    (hlater : w.now 1 ≤ row.expires) :
    (authMiddleware welcomeHandler w r).1 =
        { cookies := [],
          reply := .ExecuteTemplate "welcome.html" (some (getUsernameFromRequest w r).1) } ∧
      (getUsernameFromRequest w r).1 = row.username ∧ row.username ≠ "" := by
  have h2 : ¬ row.expires < w.now 1 := not_lt.mpr hlater
  by_cases h1 : row.expires < w.now 0
  · simp [getUsernameFromRequest, hc, hs, timeNow, After, h1] at hguard
  · have hu : row.username ≠ "" := by
      simpa [getUsernameFromRequest, hc, hs, timeNow, After, h1] using hguard
    simp [authMiddleware, welcomeHandler, getUsernameFromRequest, hc, hs, timeNow, After,
      h1, h2, hu]

/-- The amended C10 at a concrete input: both lookups at time `5`, expiry `100`. -/
theorem welcome_renders_guard_identity_witness :
    (getUsernameFromRequest (demoWorld [] [⟨"T", "alice", 100⟩] (fun _ => 5))
        (mkRequest "GET" "" "" (some "T"))).1 ≠ "" ∧
      (authMiddleware welcomeHandler (demoWorld [] [⟨"T", "alice", 100⟩] (fun _ => 5))
        (mkRequest "GET" "" "" (some "T"))).1 =
        { cookies := [], reply := .ExecuteTemplate "welcome.html" (some "alice") } :=
  ⟨by decide,
    (welcome_renders_guard_identity (demoWorld [] [⟨"T", "alice", 100⟩] (fun _ => 5))
      (mkRequest "GET" "" "" (some "T")) "T" ⟨"T", "alice", 100⟩
      (by decide) (by decide) (by decide) (by decide)).1⟩

/-! ## Terminal session states (C8) -/

theorem absorbed_of_later (w w1 : World) (T : String) (k j : Nat) (h : Absorbed w T)
    (hnow : w1.now = fun n => w.now (n + k))
    (huuid : w1.newString = fun n => w.newString (n + j))
    (hsel : ∀ row, selectSession w1.sessions T = some row →
      selectSession w.sessions T = some row) : Absorbed w1 T := by
  obtain ⟨hmono, hfresh, hexp⟩ := h
  refine ⟨?_, ?_, ?_⟩
  · rw [hnow]
    intro a b hab
    exact hmono (Nat.add_le_add_right hab k)
  · intro n
    rw [huuid]
    exact hfresh (n + j)
  · intro row hrow
    have h1 := hexp row (hsel row hrow)
    have h2 : w.now 0 ≤ w.now (0 + k) := hmono (Nat.zero_le _)
    rw [hnow]
    exact lt_of_lt_of_le h1 h2

theorem absorbed_getUsernameFromRequest (w : World) (r : Request) (T : String)
    (h : Absorbed w T) : Absorbed (getUsernameFromRequest w r).2 T := by
  cases hc : r.Cookie "session_id" with
  | none => simpa [getUsernameFromRequest, hc] using h
  | some c =>
    cases hs : selectSession w.sessions c with
    | none => simpa [getUsernameFromRequest, hc, hs] using h
    | some row =>
      refine absorbed_of_later w _ T 1 0 h ?_ ?_ ?_
      · by_cases hexp : After (w.now 0) row.expires = true <;>
          simp [getUsernameFromRequest, hc, hs, timeNow, hexp]
      · by_cases hexp : After (w.now 0) row.expires = true <;>
          simp [getUsernameFromRequest, hc, hs, timeNow, hexp]
      · by_cases hexp : After (w.now 0) row.expires = true <;>
          simp [getUsernameFromRequest, hc, hs, timeNow, hexp]

theorem absorbed_signupHandler (w : World) (r : Request) (T : String)
    (h : Absorbed w T) : Absorbed (signupHandler w r).2 T := by
  by_cases hm : r.Method = MethodPost
  · cases hgen : w.generateFromPassword 0 (r.FormValue "password") with
    | none =>
      refine absorbed_of_later w _ T 0 0 h ?_ ?_ ?_ <;>
        simp [signupHandler, hm, bcryptGenerateFromPassword, hgen]
    | some d =>
      cases hins : insertUser w.users (r.FormValue "username") d with
      | none =>
        refine absorbed_of_later w _ T 0 0 h ?_ ?_ ?_ <;>
          simp [signupHandler, hm, bcryptGenerateFromPassword, hgen, hins]
      | some users1 =>
        refine absorbed_of_later w _ T 0 0 h ?_ ?_ ?_ <;>
          simp [signupHandler, hm, bcryptGenerateFromPassword, hgen, hins]
  · simpa [signupHandler, hm] using h

theorem absorbed_logoutHandler (w : World) (r : Request) (T : String)
    (h : Absorbed w T) : Absorbed (logoutHandler w r).2 T := by
  cases hc : r.Cookie "session_id" with
  | none => simpa [logoutHandler, hc] using h
  | some c =>
    refine absorbed_of_later w _ T 0 0 h ?_ ?_ ?_
    · simp [logoutHandler, hc]
    · simp [logoutHandler, hc]
    · intro row hrow
      by_cases hcT : c = T
      · subst hcT
        simp [logoutHandler, hc, selectSession_deleteSession_self] at hrow
      · simpa [logoutHandler, hc, selectSession_deleteSession_of_ne _ _ _ hcT] using hrow

theorem absorbed_loginHandler (w : World) (r : Request) (T : String)
    (h : Absorbed w T) : Absorbed (loginHandler w r).2 T := by
  by_cases hm : r.Method = MethodPost
  · cases hsel : selectPassword w.users (r.FormValue "username") with
    | none => simpa [loginHandler, hm, hsel] using h
    | some dbPassword =>
      cases hcmp : w.compareHashAndPassword dbPassword (r.FormValue "password") with
      | false => simpa [loginHandler, hm, hsel, hcmp] using h
      | true =>
        cases hins : insertSession w.sessions (w.newString 0) (r.FormValue "username")
            (w.now 0 + sessionTTL) with
        | none =>
          refine absorbed_of_later w _ T 1 1 h ?_ ?_ ?_ <;>
            simp [loginHandler, hm, hsel, hcmp, uuidNewString, timeNow, hins]
        | some sessions1 =>
          have hs1 := insertSession_eq_some _ _ _ _ _ hins
          refine absorbed_of_later w _ T 1 1 h ?_ ?_ ?_
          · simp [loginHandler, hm, hsel, hcmp, uuidNewString, timeNow, hins]
          · simp [loginHandler, hm, hsel, hcmp, uuidNewString, timeNow, hins]
          · intro row hrow
            have hne : w.newString 0 ≠ T := h.2.1 0
            simp only [loginHandler, hm, hsel, hcmp, uuidNewString, timeNow, hins] at hrow
            simp only [if_true, Bool.not_true, Bool.false_eq_true, if_false] at hrow
            rw [hs1, selectSession_append_of_ne _ _ _ hne] at hrow
            exact hrow
  · simpa [loginHandler, hm] using h

theorem absorbed_welcome (w : World) (r : Request) (T : String)
    (h : Absorbed w T) : Absorbed (authMiddleware welcomeHandler w r).2 T := by
  have h1 := absorbed_getUsernameFromRequest w r T h
  have h2 := absorbed_getUsernameFromRequest (getUsernameFromRequest w r).2 r T h1
  unfold authMiddleware welcomeHandler
  dsimp only
  split
  · exact h1
  · exact h2

theorem absorbed_step (w : World) (s : Step) (T : String) (h : Absorbed w T) :
    Absorbed (step w s) T := by
  cases s with
  | signup r => exact absorbed_signupHandler w r T h
  | login r => exact absorbed_loginHandler w r T h
  | logout r => exact absorbed_logoutHandler w r T h
  | welcome r => exact absorbed_welcome w r T h

theorem absorbed_run (steps : List Step) (w : World) (T : String) (h : Absorbed w T) :
    Absorbed (run w steps) T := by
  induction steps generalizing w with
  | nil => exact h
  | cons s rest ih => exact ih (step w s) (absorbed_step w s T h)

theorem getUsernameFromRequest_of_absorbed (w : World) (r : Request) (T : String)
    (h : Absorbed w T) (hr : r.Cookie "session_id" = some T) :
    (getUsernameFromRequest w r).1 = "" := by
  cases hs : selectSession w.sessions T with
  | none => simp [getUsernameFromRequest, hr, hs]
  | some row =>
    have := h.2.2 row hs
    simp [getUsernameFromRequest, hr, hs, timeNow, After, this]


/-- C8, as the claim states it, fails when `uuid.NewString()` returns a revoked
token again: alice registers and logs in (token `"T"`), logs out, and logs in
again under a constant clock; the second login is issued `"T"` once more, and
`getUsernameFromRequest` resolves the revoked `"T"` to `"alice"` again. -/
theorem revoked_token_resolves_after_reissue :
    Monotone (demoWorld [] [] (fun _ => 5)).now ∧
      (getUsernameFromRequest
        (run (demoWorld [] [] (fun _ => 5))
          [.signup (mkRequest "POST" "alice" "pw1" none),
           .login (mkRequest "POST" "alice" "pw1" none),
           .logout (mkRequest "GET" "" "" (some "T"))])
        (mkRequest "GET" "" "" (some "T"))).1 = "" ∧
      (getUsernameFromRequest
        (run (demoWorld [] [] (fun _ => 5))
          [.signup (mkRequest "POST" "alice" "pw1" none),
           .login (mkRequest "POST" "alice" "pw1" none),
           .logout (mkRequest "GET" "" "" (some "T")),
           .login (mkRequest "POST" "alice" "pw1" none)])
        (mkRequest "GET" "" "" (some "T"))).1 = "alice" :=
  ⟨monotone_const, by decide, by decide⟩

/-- C8 (amended): let the clock be non-decreasing and let `uuid.NewString()` never
return token `T` from now on.  Once `T` has been revoked by `logoutHandler`, or the
clock has passed the expiry of its session row, then after any sequence of signup,
login, logout and protected requests `getUsernameFromRequest` returns the empty
string for a request carrying `T`. -/
theorem terminal_session_absorbing (w0 w : World) (T : String) (r0 r : Request)
    (steps : List Step)
    (hterm : (r0.Cookie "session_id" = some T ∧ w = (logoutHandler w0 r0).2) ∨
      (∃ row, selectSession w.sessions T = some row ∧ row.expires < w.now 0))
    (hclock : Monotone w.now) (huuid : ∀ n, w.newString n ≠ T)
    (hr : r.Cookie "session_id" = some T) :
    (getUsernameFromRequest (run w steps) r).1 = "" := by
  have habs : Absorbed w T := by
    refine ⟨hclock, huuid, ?_⟩
    intro row hrow
    rcases hterm with ⟨hc, hw⟩ | ⟨row1, hsel, hexp⟩
    · subst hw
      simp [logoutHandler, hc, selectSession_deleteSession_self] at hrow
    · rw [hsel] at hrow
      cases hrow
      exact hexp
  exact getUsernameFromRequest_of_absorbed _ r T (absorbed_run steps w T habs) hr

/-- The amended C8 at a concrete input: session `"S"` of alice is revoked; a later
login (issued token `"T"`), a protected request and a signup do not revive it. -/
theorem terminal_session_absorbing_witness :
    (mkRequest "GET" "" "" (some "S")).Cookie "session_id" = some "S" ∧
      (getUsernameFromRequest
        (run (logoutHandler (demoWorld [⟨"alice", "$2a$pw1"⟩] [⟨"S", "alice", 100⟩] (fun _ => 5))
            (mkRequest "GET" "" "" (some "S"))).2
          [.login (mkRequest "POST" "alice" "pw1" none),
           .welcome (mkRequest "GET" "" "" (some "S")),
           .signup (mkRequest "POST" "bob" "pw2" none)])
        (mkRequest "GET" "" "" (some "S"))).1 = "" :=
  ⟨by decide,
    terminal_session_absorbing
      (demoWorld [⟨"alice", "$2a$pw1"⟩] [⟨"S", "alice", 100⟩] (fun _ => 5))
      (logoutHandler (demoWorld [⟨"alice", "$2a$pw1"⟩] [⟨"S", "alice", 100⟩] (fun _ => 5))
        (mkRequest "GET" "" "" (some "S"))).2
      "S" (mkRequest "GET" "" "" (some "S")) (mkRequest "GET" "" "" (some "S"))
      [.login (mkRequest "POST" "alice" "pw1" none),
       .welcome (mkRequest "GET" "" "" (some "S")),
       .signup (mkRequest "POST" "bob" "pw2" none)]
      (Or.inl ⟨by decide, rfl⟩) monotone_const
      (by intro n; show "T" ≠ "S"; decide) (by decide)⟩

/-! ## Empty usernames (C9) -/

/-- C9 fails on the code: a signup POST whose username is the empty string commits
the user row `("", digest)` and redirects to `/login`; the login POST of that user
succeeds and stores a session owned by `""`; and `authMiddleware`, for which the
empty string means that nobody is logged in, then redirects the request carrying
the issued token to `/login`. -/
theorem signup_commits_empty_username :
    (signupHandler (demoWorld [] [] (fun _ => 0)) (mkRequest "POST" "" "pw" none)).1 =
        { cookies := [], reply := .Redirect "/login" StatusSeeOther } ∧
      (signupHandler (demoWorld [] [] (fun _ => 0)) (mkRequest "POST" "" "pw" none)).2.users =
        [⟨"", "$2a$pw"⟩] ∧
      (loginHandler
        (signupHandler (demoWorld [] [] (fun _ => 0)) (mkRequest "POST" "" "pw" none)).2
        (mkRequest "POST" "" "pw" none)).1 =
        { cookies := [sessionCookie "T" sessionTTL],
          reply := .Redirect "/welcome" StatusSeeOther } ∧
      (loginHandler
        (signupHandler (demoWorld [] [] (fun _ => 0)) (mkRequest "POST" "" "pw" none)).2
        (mkRequest "POST" "" "pw" none)).2.sessions = [⟨"T", "", sessionTTL⟩] ∧
      (authMiddleware welcomeHandler
        (loginHandler
          (signupHandler (demoWorld [] [] (fun _ => 0)) (mkRequest "POST" "" "pw" none)).2
          (mkRequest "POST" "" "pw" none)).2
        (mkRequest "GET" "" "" (some "T"))).1 = redirectToLogin := by
  decide

end LoginProject
